import Mathlib

/-
Verification of the churn-prediction application core: a shallow embedding of
the data model (config/constants.py, data/schemas.py), the validation engine
(data/validator.py), the risk-tier logic (models/predictor.py), the attribution
wrapper (models/explainer.py) and the batch runner (ui/batch_processing.py).
Python numbers are modelled as rationals, enum members as closed inductive
types, dict-shaped rows as association lists, and raised exceptions as Except
or Option results.
-/

namespace Churn

/-- Enum Gender from config/constants.py (values "Homme" / "Femme"). -/
inductive Gender
  | MALE
  | FEMALE
  deriving DecidableEq, Repr

/-- Enum Country from config/constants.py (values "France" / "Allemagne" / "Espagne"). -/
inductive Country
  | FRANCE
  | GERMANY
  | SPAIN
  deriving DecidableEq, Repr

/-- Enum Category from config/constants.py. -/
inductive Category
  | RUBIS
  | SILVER
  | GOLD
  | PLATINUM
  deriving DecidableEq, Repr

/-- Enum BinaryChoice from config/constants.py (values "Oui" / "Non"). -/
inductive BinaryChoice
  | YES
  | NO
  deriving DecidableEq, Repr

/-- The .value string of a Country member. -/
def Country.value : Country → String
  | .FRANCE => "France"
  | .GERMANY => "Allemagne"
  | .SPAIN => "Espagne"

/-- The .value string of a Category member. -/
def Category.value : Category → String
  | .RUBIS => "RUBIS"
  | .SILVER => "SILVER"
  | .GOLD => "GOLD"
  | .PLATINUM => "PLATINUM"

/-- One entry of VALIDATION_RANGES: min, max and default value of a numeric
field (config/constants.py). The default is only used by UI forms. -/
structure VRange where
  min : ℚ
  max : ℚ
  dflt : ℚ
  deriving DecidableEq, Repr

/-- VALIDATION_RANGES from config/constants.py. -/
def VALIDATION_RANGES : List (String × VRange) :=
  [("credit_score", ⟨300, 900, 600⟩),
   ("age", ⟨18, 100, 30⟩),
   ("tenure", ⟨0, 20, 3⟩),
   ("balance", ⟨0, 300000, 1000⟩),
   ("num_of_products", ⟨1, 4, 2⟩),
   ("estimated_salary", ⟨0, 300000, 50000⟩),
   ("satisfaction_score", ⟨0, 5, 3⟩),
   ("point_earned", ⟨0, 100000, 500⟩)]

/-- Dictionary lookup in VALIDATION_RANGES. -/
def lookupRange (f : String) : Option VRange :=
  (VALIDATION_RANGES.find? (fun p => p.1 == f)).map (fun p => p.2)

/-- MODEL_FEATURES from config/constants.py: the frozen 17-column model order. -/
def MODEL_FEATURES : List String :=
  ["creditscore", "age", "tenure", "balance", "numofproducts", "hascrcard",
   "isactivemember", "estimatedsalary", "complain", "satisfaction score",
   "point earned", "Male", "Germany", "Spain", "GOLD", "PLATINUM", "SILVER"]

/-- CustomerData from data/schemas.py. Python ints become ℤ, floats become ℚ. -/
structure CustomerData where
  credit_score : ℤ
  age : ℤ
  tenure : ℤ
  balance : ℚ
  num_of_products : ℤ
  estimated_salary : ℚ
  satisfaction_score : ℤ
  point_earned : ℤ
  has_credit_card : BinaryChoice
  is_active_member : BinaryChoice
  complain : BinaryChoice
  gender : Gender
  country : Country
  category : Category
  deriving DecidableEq, Repr

/-- CustomerData.to_dict from data/schemas.py: the ordered dict of the 17
model-named columns, with the one-hot and binary encodings inlined exactly as
in the source. -/
def CustomerData.to_dict (c : CustomerData) : List (String × ℚ) :=
  [("creditscore", (c.credit_score : ℚ)),
   ("age", (c.age : ℚ)),
   ("tenure", (c.tenure : ℚ)),
   ("balance", c.balance),
   ("numofproducts", (c.num_of_products : ℚ)),
   ("hascrcard", if c.has_credit_card = BinaryChoice.YES then 1 else 0),
   ("isactivemember", if c.is_active_member = BinaryChoice.YES then 1 else 0),
   ("estimatedsalary", c.estimated_salary),
   ("complain", if c.complain = BinaryChoice.YES then 1 else 0),
   ("satisfaction score", (c.satisfaction_score : ℚ)),
   ("point earned", (c.point_earned : ℚ)),
   ("Male", if c.gender = Gender.MALE then 1 else 0),
   ("Germany", if c.country = Country.GERMANY then 1 else 0),
   ("Spain", if c.country = Country.SPAIN then 1 else 0),
   ("GOLD", if c.category = Category.GOLD then 1 else 0),
   ("PLATINUM", if c.category = Category.PLATINUM then 1 else 0),
   ("SILVER", if c.category = Category.SILVER then 1 else 0)]

/-- Lookup of a named slot in a feature dict, 0 when absent. -/
def dictGet (d : List (String × ℚ)) (k : String) : ℚ :=
  ((d.find? (fun p => p.1 == k)).map (fun p => p.2)).getD 0

/-- ChurnPredictor.get_risk_level from models/predictor.py (naming kept
without the leading underscore of the Python method). -/
def getRiskLevel (p : ℚ) : String :=
  if p < 3/10 then "Faible"
  else if p < 7/10 then "Moyen"
  else "Élevé"

/-- A Python value that can appear in the attribute mapping handed to the
validator: a number, or a member of one of the four application enums. -/
inductive PyValue
  | num (q : ℚ)
  | gender (g : Gender)
  | country (c : Country)
  | category (k : Category)
  | binary (b : BinaryChoice)
  deriving DecidableEq, Repr

/-- The dict-shaped attribute mapping flowing through the validator, as an
association list; keys the validator never looks up are simply ignored, which
models unknown fields in the Python dict. -/
def RawData : Type := List (String × PyValue)

/-- Python dict .get: first binding of the key, if any. -/
def get (d : RawData) (k : String) : Option PyValue :=
  (d.find? (fun p => p.1 == k)).map (fun p => p.2)

/-- A structured DataValidationError raised or collected by the validator. -/
inductive VError
  | unknownField (field : String)
  | rangeError (field : String) (lo hi received : ℚ)
  | requiredField (field : String)
  | enumError (field : String) (received : PyValue)
  | unexpectedError
  deriving DecidableEq, Repr

/-- Outcome of a raising Python call inside the validator: either a
DataValidationError, or a TypeError from comparing a non-number with the
numeric bounds (caught only by the outer generic handler). -/
inductive PyError
  | dve (e : VError)
  | typeError
  deriving DecidableEq, Repr

/-- DataValidator.validate_numeric_field from data/validator.py: unknown-field
check first, then the range comparison, which raises a TypeError when the
value is not a number. -/
def validate_numeric_field (value : PyValue) (field : String) : Except PyError Unit :=
  match lookupRange field with
  | none => .error (.dve (.unknownField field))
  | some rg =>
      match value with
      | .num q =>
          if rg.min ≤ q ∧ q ≤ rg.max then .ok ()
          else .error (.dve (.rangeError field rg.min rg.max q))
      | _ => .error .typeError

/-- Tag for the enum class a field is validated against. -/
inductive EnumClass
  | genderE
  | countryE
  | categoryE
  | binaryE
  deriving DecidableEq, Repr

/-- Python membership test of a value in an enum class: true exactly when the
value is a member of that enum. -/
def memberOf (v : PyValue) (e : EnumClass) : Bool :=
  match v, e with
  | .gender _, .genderE => true
  | .country _, .countryE => true
  | .category _, .categoryE => true
  | .binary _, .binaryE => true
  | _, _ => false

/-- DataValidator.validate_enum_field from data/validator.py. -/
def validate_enum_field (value : PyValue) (e : EnumClass) (field : String) :
    Except VError Unit :=
  if memberOf value e then .ok () else .error (.enumError field value)

/-- The 8 numeric field names checked by validate_customer_data, in source
order. -/
def numericFields : List String :=
  ["credit_score", "age", "tenure", "balance", "num_of_products",
   "estimated_salary", "satisfaction_score", "point_earned"]

/-- The 6 enum-valued field names checked by validate_customer_data with their
enum classes, in source order. -/
def enumFields : List (String × EnumClass) :=
  [("gender", .genderE), ("country", .countryE), ("category", .categoryE),
   ("has_credit_card", .binaryE), ("is_active_member", .binaryE),
   ("complain", .binaryE)]

/-- The numeric-field loop of validate_customer_data: appends a required-field
error for a missing value, collects DataValidationErrors, and on a TypeError
aborts with the generic unexpected-validation error appended (the outer
except-Exception handler returns immediately); the Bool reports that abort. -/
def validateNumericLoop (data : RawData) (acc : List VError) :
    List String → List VError × Bool
  | [] => (acc, false)
  | f :: rest =>
      match get data f with
      | none => validateNumericLoop data (acc ++ [.requiredField f]) rest
      | some v =>
          match validate_numeric_field v f with
          | .ok _ => validateNumericLoop data acc rest
          | .error (.dve e) => validateNumericLoop data (acc ++ [e]) rest
          | .error .typeError => (acc ++ [.unexpectedError], true)

/-- The enum-field loop of validate_customer_data. -/
def validateEnumLoop (data : RawData) (acc : List VError) :
    List (String × EnumClass) → List VError
  | [] => acc
  | fe :: rest =>
      match get data fe.1 with
      | none => validateEnumLoop data (acc ++ [.requiredField fe.1]) rest
      | some v =>
          match validate_enum_field v fe.2 fe.1 with
          | .ok _ => validateEnumLoop data acc rest
          | .error e => validateEnumLoop data (acc ++ [e]) rest

/-- DataValidator.validate_customer_data from data/validator.py: numeric loop
then enum loop, with the outer except-Exception handler modelled by the abort
flag (a TypeError ends validation with the generic error collected). -/
def validate_customer_data (data : RawData) : List VError :=
  let r := validateNumericLoop data [] numericFields
  if r.2 then r.1 else validateEnumLoop data r.1 enumFields

/-- A business-rule inconsistency from validate_business_rules. -/
inductive BizError
  | youngHighSalary
  | lowCreditHighBalance
  | productsInactive
  deriving DecidableEq, Repr

/-- Numeric read with Python .get default; none models the TypeError raised
when the stored value is compared with a number without being one. -/
def getNum (data : RawData) (f : String) (dflt : ℚ) : Option ℚ :=
  match get data f with
  | none => some dflt
  | some (.num q) => some q
  | some _ => none

/-- Rule (a) of validate_business_rules, with the Python short-circuit of the
conjunction: age below 25 and salary above 150000. -/
def rule1 (data : RawData) : Option Bool := do
  let a ← getNum data "age" 0
  if a < 25 then
    let s ← getNum data "estimated_salary" 0
    pure (decide (150000 < s))
  else
    pure false

/-- Rule (b) of validate_business_rules: credit score below 400 and balance
above 200000. -/
def rule2 (data : RawData) : Option Bool := do
  let cs ← getNum data "credit_score" 0
  if cs < 400 then
    let b ← getNum data "balance" 0
    pure (decide (200000 < b))
  else
    pure false

/-- Rule (c) of validate_business_rules: at least 4 products while the
is-active-member value equals BinaryChoice.NO. -/
def rule3 (data : RawData) : Option Bool := do
  let np ← getNum data "num_of_products" 0
  pure (decide (4 ≤ np) && decide (get data "is_active_member" = some (.binary .NO)))

/-- DataValidator.validate_business_rules from data/validator.py; none models
an uncaught TypeError escaping the function. -/
def validate_business_rules (data : RawData) : Option (List BizError) := do
  let b1 ← rule1 data
  let b2 ← rule2 data
  let b3 ← rule3 data
  pure ((if b1 then [BizError.youngHighSalary] else []) ++
        (if b2 then [BizError.lowCreditHighBalance] else []) ++
        (if b3 then [BizError.productsInactive] else []))

/-- PredictionResult from data/schemas.py. -/
structure PredictionResult where
  prediction : ℤ
  probability : ℚ
  risk_level : String
  deriving DecidableEq, Repr

/-- PredictionResult.will_churn from data/schemas.py. -/
def PredictionResult.will_churn (r : PredictionResult) : Bool :=
  r.prediction == 1

/-- The raw output of the attribution backend on one encoded row: the class-1
per-feature values (shap values array sliced at index 0 of the batch and class
index 1) and the per-instance base value read at batch index 0, as the source
indexes them. -/
structure ShapValuesOutput where
  vals : List ℚ
  base0 : ℚ

/-- The external attribution engine (the shap library Explainer, out of this
repository): its expected value for the churn class and the callable producing
shap values on an encoded input row. -/
structure ShapBackend where
  expected_value_churn : ℚ
  run : List (String × ℚ) → ShapValuesOutput

/-- The result dict built by SHAPExplainer.get_shap_explanation. -/
structure ShapDict where
  base_value : ℚ
  shap_values : List (String × ℚ)
  feature_values : List (String × ℚ)
  prediction : ℚ
  deriving Repr

/-- SHAPExplainer.get_shap_explanation from models/explainer.py: returns none
when shap is unavailable or the lazily-built engine is absent; otherwise
builds the dict with base_value from the expected value of the churn class,
shap_values zipped over MODEL_FEATURES, feature_values from the encoded row,
and prediction reconstructed as the per-instance base value plus the sum of
the shap values. -/
def get_shap_explanation (shap_available : Bool) (explainer : Option ShapBackend)
    (c : CustomerData) : Option ShapDict :=
  if shap_available = false then none
  else
    match explainer with
    | none => none
    | some e =>
        let input := c.to_dict
        let sv := e.run input
        some { base_value := e.expected_value_churn
             , shap_values := MODEL_FEATURES.zip sv.vals
             , feature_values := input
             , prediction := sv.base0 + sv.vals.sum }

/-- One cell of a raw uploaded batch row: a parsed number or a left-over
string that int() and float() reject. -/
inductive RawCell
  | num (q : ℚ)
  | str (s : String)
  deriving DecidableEq, Repr

/-- One raw row of the uploaded semicolon-separated batch file, with the
columns BatchProcessor.row_to_customer_data reads. -/
structure RawRow where
  credit_score : RawCell
  age : RawCell
  tenure : RawCell
  balance : RawCell
  num_of_products : RawCell
  estimated_salary : RawCell
  satisfaction_score : RawCell
  point_earned : RawCell
  has_credit_card : String
  is_active_member : String
  complain : String
  gender : String
  country : String
  category : String
  deriving DecidableEq, Repr

/-- Python int() truncation toward zero on a rational. -/
def pyInt (q : ℚ) : ℤ := q.num / q.den

/-- Python int(cell): fails with a wrapped conversion error on a non-numeric
cell. -/
def cellInt : RawCell → Except String ℤ
  | .num q => .ok (pyInt q)
  | .str s => .error ("Erreur de conversion des données : " ++ s)

/-- Python float(cell): fails with a wrapped conversion error on a non-numeric
cell. -/
def cellFloat : RawCell → Except String ℚ
  | .num q => .ok q
  | .str s => .error ("Erreur de conversion des données : " ++ s)

/-- The gender branch of row_to_customer_data: Homme, otherwise FEMALE. -/
def parseGender (s : String) : Gender :=
  if s == "Homme" then .MALE else .FEMALE

/-- The country branches of row_to_customer_data: France, Allemagne, otherwise
SPAIN. -/
def parseCountry (s : String) : Country :=
  if s == "France" then .FRANCE
  else if s == "Allemagne" then .GERMANY
  else .SPAIN

/-- The category branches of row_to_customer_data: RUBIS, SILVER, GOLD,
otherwise PLATINUM. -/
def parseCategory (s : String) : Category :=
  if s == "RUBIS" then .RUBIS
  else if s == "SILVER" then .SILVER
  else if s == "GOLD" then .GOLD
  else .PLATINUM

/-- The yes/no branches of row_to_customer_data: Oui, otherwise NO. -/
def parseBinary (s : String) : BinaryChoice :=
  if s == "Oui" then .YES else .NO

/-- BatchProcessor.row_to_customer_data from ui/batch_processing.py: the
numeric conversions can fail (ValueError wrapped into a DataValidationError),
the categorical and yes/no conversions are total with the else-fallbacks of
the source. -/
def row_to_customer_data (r : RawRow) : Except String CustomerData := do
  let cs ← cellInt r.credit_score
  let a ← cellInt r.age
  let t ← cellInt r.tenure
  let b ← cellFloat r.balance
  let np ← cellInt r.num_of_products
  let es ← cellFloat r.estimated_salary
  let ss ← cellInt r.satisfaction_score
  let pe ← cellInt r.point_earned
  pure { credit_score := cs, age := a, tenure := t, balance := b
       , num_of_products := np, estimated_salary := es
       , satisfaction_score := ss, point_earned := pe
       , has_credit_card := parseBinary r.has_credit_card
       , is_active_member := parseBinary r.is_active_member
       , complain := parseBinary r.complain
       , gender := parseGender r.gender
       , country := parseCountry r.country
       , category := parseCategory r.category }

/-- The dict view of a CustomerData passed to the validator in the batch loop
(customer_data.__dict__): dataclass field names bound to numbers and enum
members. -/
def CustomerData.toRawData (c : CustomerData) : RawData :=
  [("credit_score", .num (c.credit_score : ℚ)),
   ("age", .num (c.age : ℚ)),
   ("tenure", .num (c.tenure : ℚ)),
   ("balance", .num c.balance),
   ("num_of_products", .num (c.num_of_products : ℚ)),
   ("estimated_salary", .num c.estimated_salary),
   ("satisfaction_score", .num (c.satisfaction_score : ℚ)),
   ("point_earned", .num (c.point_earned : ℚ)),
   ("has_credit_card", .binary c.has_credit_card),
   ("is_active_member", .binary c.is_active_member),
   ("complain", .binary c.complain),
   ("gender", .gender c.gender),
   ("country", .country c.country),
   ("category", .category c.category)]

/-- ChurnPredictor.predict from models/predictor.py, parametrized by the
external classifier (label and churn-class probability, possibly raising): the
missing-features check against MODEL_FEATURES, then the classifier call and
the risk-tier derivation. -/
def predictCustomer (model : CustomerData → Except String (ℤ × ℚ))
    (c : CustomerData) : Except String PredictionResult :=
  let missing := MODEL_FEATURES.filter (fun f => !(c.to_dict.map Prod.fst).contains f)
  if missing ≠ [] then .error "Caractéristiques manquantes"
  else
    match model c with
    | .error e => .error e
    | .ok (p, pr) => .ok ⟨p, pr, getRiskLevel pr⟩

/-- One row-tagged error of the batch loop, with its 1-based line number:
conversion and prediction exceptions become processing errors, a non-empty
validation result becomes a validation error. -/
inductive BatchError
  | processingError (ligne : ℕ) (msg : String)
  | validationError (ligne : ℕ) (errs : List VError)
  deriving DecidableEq, Repr

/-- The line number an error is tagged with. -/
def BatchError.ligne : BatchError → ℕ
  | .processingError l _ => l
  | .validationError l _ => l

/-- One structured result row of the batch loop (the dict appended to
results in the source). -/
structure BatchResultRow where
  ligne : ℕ
  age : ℤ
  pays : String
  categorie : String
  score_credit : ℤ
  prediction_churn : ℤ
  probabilite_churn : ℚ
  niveau_risque : String
  decision : String
  deriving DecidableEq, Repr

/-- Builds the result dict of a successfully predicted row. -/
def mkResultRow (ligne : ℕ) (c : CustomerData) (res : PredictionResult) :
    BatchResultRow :=
  { ligne := ligne
  , age := c.age
  , pays := c.country.value
  , categorie := c.category.value
  , score_credit := c.credit_score
  , prediction_churn := res.prediction
  , probabilite_churn := res.probability
  , niveau_risque := res.risk_level
  , decision := if res.will_churn then "PARTIR" else "RESTER" }

/-- The body of one iteration of BatchProcessor.process_batch_predictions for
the 0-based row index idx: convert, validate with validate_customer_data on
the dict view, predict; every failure is the single row-tagged error the
except handler or the validation branch records. -/
def processRow (model : CustomerData → Except String (ℤ × ℚ)) (idx : ℕ)
    (r : RawRow) : Except BatchError BatchResultRow :=
  match row_to_customer_data r with
  | .error e => .error (.processingError (idx + 1) e)
  | .ok c =>
      match validate_customer_data (CustomerData.toRawData c) with
      | [] =>
          match predictCustomer model c with
          | .error e => .error (.processingError (idx + 1) e)
          | .ok res => .ok (mkResultRow (idx + 1) c res)
      | e :: es => .error (.validationError (idx + 1) (e :: es))

/-- The accumulation loop of process_batch_predictions, carrying the 0-based
index of the next row; results and errors keep row order. -/
def batchLoop (model : CustomerData → Except String (ℤ × ℚ)) :
    ℕ → List RawRow → List BatchResultRow × List BatchError
  | _, [] => ([], [])
  | idx, r :: rest =>
      let tail := batchLoop model (idx + 1) rest
      match processRow model idx r with
      | .ok row => (row :: tail.1, tail.2)
      | .error e => (tail.1, e :: tail.2)

/-- BatchProcessor.process_batch_predictions from ui/batch_processing.py,
over the uploaded rows in order. -/
def process_batch_predictions (model : CustomerData → Except String (ℤ × ℚ))
    (rows : List RawRow) : List BatchResultRow × List BatchError :=
  batchLoop model 0 rows

/-- The summary metrics computed by BatchProcessor.display_batch_results;
churn_rate is none exactly when the guarded metric is not rendered. -/
structure BatchMetrics where
  total_processed : ℕ
  total_errors : ℕ
  churn_predictions : ℕ
  churn_rate : Option ℚ
  deriving DecidableEq, Repr

/-- BatchProcessor.display_batch_results from ui/batch_processing.py reduced
to its computed aggregates: counts of results and errors, count of rows
predicted as churn, and the percentage churn rate guarded against an empty
results list. -/
def display_batch_results (results : List BatchResultRow)
    (errors : List BatchError) : BatchMetrics :=
  let tp := results.length
  let cp := (results.filter (fun r => r.prediction_churn == 1)).length
  { total_processed := tp
  , total_errors := errors.length
  , churn_predictions := cp
  , churn_rate := if 0 < tp then some ((cp : ℚ) / (tp : ℚ) * 100) else none }

/-! ## Theorems -/

/-- Helper: the key sequence of to_dict is exactly MODEL_FEATURES, for every
customer. -/
theorem to_dict_keys (c : CustomerData) : c.to_dict.map Prod.fst = MODEL_FEATURES := rfl

/-- C1: to_dict produces exactly the 17 named feature slots of the frozen
model order, the country indicators equal 1 exactly for GERMANY respectively
SPAIN (both 0 for FRANCE), the category indicators equal 1 exactly for their
own member (all 0 for RUBIS), and each one-hot group carries at most one 1. -/
theorem to_dict_one_hot (c : CustomerData) :
    c.to_dict.map Prod.fst = MODEL_FEATURES ∧
    dictGet c.to_dict "Germany" = (if c.country = Country.GERMANY then 1 else 0) ∧
    dictGet c.to_dict "Spain" = (if c.country = Country.SPAIN then 1 else 0) ∧
    dictGet c.to_dict "GOLD" = (if c.category = Category.GOLD then 1 else 0) ∧
    dictGet c.to_dict "PLATINUM" = (if c.category = Category.PLATINUM then 1 else 0) ∧
    dictGet c.to_dict "SILVER" = (if c.category = Category.SILVER then 1 else 0) ∧
    dictGet c.to_dict "Germany" + dictGet c.to_dict "Spain" ≤ 1 ∧
    dictGet c.to_dict "GOLD" + dictGet c.to_dict "PLATINUM" +
      dictGet c.to_dict "SILVER" ≤ 1 := by
  refine ⟨rfl, rfl, rfl, rfl, rfl, rfl, ?_, ?_⟩
  · show (if c.country = Country.GERMANY then (1:ℚ) else 0) +
        (if c.country = Country.SPAIN then (1:ℚ) else 0) ≤ 1
    rcases c with ⟨_, _, _, _, _, _, _, _, _, _, _, _, co, _⟩
    cases co <;> simp
  · show (if c.category = Category.GOLD then (1:ℚ) else 0) +
        (if c.category = Category.PLATINUM then (1:ℚ) else 0) +
        (if c.category = Category.SILVER then (1:ℚ) else 0) ≤ 1
    rcases c with ⟨_, _, _, _, _, _, _, _, _, _, _, _, _, ca⟩
    cases ca <;> simp

/-- C2: on [0,1] the risk tier is Faible exactly below 3/10, Moyen exactly on
[3/10, 7/10), and Élevé exactly from 7/10 up; both boundary values land in
the upper tier. -/
theorem risk_level_boundaries (p : ℚ) (h0 : 0 ≤ p) (h1 : p ≤ 1) :
    (getRiskLevel p = "Faible" ↔ p < 3/10) ∧
    (getRiskLevel p = "Moyen" ↔ 3/10 ≤ p ∧ p < 7/10) ∧
    (getRiskLevel p = "Élevé" ↔ 7/10 ≤ p) := by
  unfold getRiskLevel
  by_cases hA : p < 3/10
  · rw [if_pos hA]
    refine ⟨by simp [hA], ?_, ?_⟩
    · constructor
      · intro h; exact absurd h (by decide)
      · rintro ⟨h, _⟩; linarith
    · constructor
      · intro h; exact absurd h (by decide)
      · intro h; linarith
  · rw [if_neg hA]
    by_cases hB : p < 7/10
    · rw [if_pos hB]
      refine ⟨?_, ?_, ?_⟩
      · constructor
        · intro h; exact absurd h (by decide)
        · intro h; exact absurd h hA
      · simp [hB, le_of_not_lt hA]
      · constructor
        · intro h; exact absurd h (by decide)
        · intro h; linarith
    · rw [if_neg hB]
      refine ⟨?_, ?_, ?_⟩
      · constructor
        · intro h; exact absurd h (by decide)
        · intro h; exact absurd h hA
      · constructor
        · intro h; exact absurd h (by decide)
        · rintro ⟨_, h⟩; exact absurd h hB
      · simp [le_of_not_lt hB]

/-- Witness for C2: probability 3/10 is classified Moyen and 7/10 Élevé. -/
theorem risk_level_boundaries_witness :
    (0 ≤ (3:ℚ)/10 ∧ (3:ℚ)/10 ≤ 1 ∧ getRiskLevel (3/10) = "Moyen") ∧
    (0 ≤ (7:ℚ)/10 ∧ (7:ℚ)/10 ≤ 1 ∧ getRiskLevel (7/10) = "Élevé") :=
  ⟨⟨by norm_num, by norm_num,
    (risk_level_boundaries (3/10) (by norm_num) (by norm_num)).2.1.mpr (by norm_num)⟩,
   ⟨by norm_num, by norm_num,
    (risk_level_boundaries (7/10) (by norm_num) (by norm_num)).2.2.mpr (by norm_num)⟩⟩

/-- C4: for a numeric field with a declared range, a value passes exactly when
it lies within [min, max] inclusive, and a value strictly outside yields the
range error naming the field, both bounds and the received value. -/
theorem numeric_range_boundaries (f : String) (rg : VRange) (v : ℚ)
    (h : lookupRange f = some rg) :
    (validate_numeric_field (.num v) f = .ok () ↔ rg.min ≤ v ∧ v ≤ rg.max) ∧
    ((v < rg.min ∨ rg.max < v) →
      validate_numeric_field (.num v) f =
        .error (.dve (.rangeError f rg.min rg.max v))) := by
  unfold validate_numeric_field
  rw [h]
  constructor
  · by_cases hv : rg.min ≤ v ∧ v ≤ rg.max
    · simp [hv]
    · simp [hv]
  · intro hout
    have hv : ¬(rg.min ≤ v ∧ v ≤ rg.max) := by
      rcases hout with h1 | h1 <;> rintro ⟨a, b⟩ <;> linarith
    simp [hv]

/-- Witness for C4: credit_score accepts 300 and 900 and rejects 299 and 901
with the full range error. -/
theorem numeric_range_boundaries_witness :
    lookupRange "credit_score" = some ⟨300, 900, 600⟩ ∧
    validate_numeric_field (.num 300) "credit_score" = .ok () ∧
    validate_numeric_field (.num 900) "credit_score" = .ok () ∧
    validate_numeric_field (.num 299) "credit_score" =
      .error (.dve (.rangeError "credit_score" 300 900 299)) ∧
    validate_numeric_field (.num 901) "credit_score" =
      .error (.dve (.rangeError "credit_score" 300 900 901)) :=
  ⟨rfl,
   (numeric_range_boundaries "credit_score" ⟨300, 900, 600⟩ 300 rfl).1.mpr (by norm_num),
   (numeric_range_boundaries "credit_score" ⟨300, 900, 600⟩ 900 rfl).1.mpr (by norm_num),
   (numeric_range_boundaries "credit_score" ⟨300, 900, 600⟩ 299 rfl).2 (Or.inl (by norm_num)),
   (numeric_range_boundaries "credit_score" ⟨300, 900, 600⟩ 901 rfl).2 (Or.inr (by norm_num))⟩

/-- C3: whenever get_shap_explanation returns a dict, and the backend obeys
the shap contract that the per-instance base value equals the expected value
of the churn class and that it yields one value per feature, the returned
base_value plus the sum of the returned shap_values reconstructs the returned
prediction within 1e-6. -/
theorem shap_reconstruction (e : ShapBackend) (c : CustomerData) (d : ShapDict)
    (hd : get_shap_explanation true (some e) c = some d)
    (hlen : (e.run c.to_dict).vals.length = MODEL_FEATURES.length)
    (hbase : (e.run c.to_dict).base0 = e.expected_value_churn) :
    |d.base_value + (d.shap_values.map Prod.snd).sum - d.prediction| ≤ 1 / 1000000 := by
  unfold get_shap_explanation at hd
  simp only [Bool.true_eq_false, if_false] at hd
  rw [Option.some_inj] at hd
  subst hd
  simp only
  rw [List.map_snd_zip _ _ (le_of_eq hlen), hbase, sub_self, abs_zero]
  norm_num

/-- A concrete customer used by witnesses. -/
def sampleCustomer : CustomerData :=
  { credit_score := 650, age := 35, tenure := 5, balance := 50000
  , num_of_products := 2, estimated_salary := 75000, satisfaction_score := 4
  , point_earned := 1000, has_credit_card := .YES, is_active_member := .YES
  , complain := .NO, gender := .MALE, country := .FRANCE, category := .SILVER }

/-- A concrete attribution backend obeying the shap contract. -/
def sampleBackend : ShapBackend :=
  { expected_value_churn := 1/2
  , run := fun _ => { vals := List.replicate 17 (1/100), base0 := 1/2 } }

/-- The dict get_shap_explanation builds from sampleBackend on
sampleCustomer. -/
def sampleShapDict : ShapDict :=
  { base_value := 1/2
  , shap_values := MODEL_FEATURES.zip (List.replicate 17 (1/100))
  , feature_values := sampleCustomer.to_dict
  , prediction := 1/2 + (List.replicate 17 ((1:ℚ)/100)).sum }

/-- Witness for C3 on a concrete backend and customer. -/
theorem shap_reconstruction_witness :
    get_shap_explanation true (some sampleBackend) sampleCustomer = some sampleShapDict ∧
    |sampleShapDict.base_value + (sampleShapDict.shap_values.map Prod.snd).sum
      - sampleShapDict.prediction| ≤ 1 / 1000000 :=
  ⟨rfl, shap_reconstruction sampleBackend sampleCustomer sampleShapDict rfl rfl rfl⟩

/-- C10: when the shap dependency is not importable, get_shap_explanation
returns none for every customer and every state of the lazily-built engine,
raising nothing. -/
theorem shap_unavailable_returns_none (explainer : Option ShapBackend)
    (c : CustomerData) : get_shap_explanation false explainer c = none := rfl

/-- C5: on a mapping holding all the involved fields with their proper types,
validate_business_rules returns exactly the three inconsistencies, each
present precisely when its stated condition holds, and nothing else. -/
theorem business_rules_exact (data : RawData) (a s cs b np : ℚ) (act : BinaryChoice)
    (ha : get data "age" = some (.num a))
    (hs : get data "estimated_salary" = some (.num s))
    (hc : get data "credit_score" = some (.num cs))
    (hb : get data "balance" = some (.num b))
    (hn : get data "num_of_products" = some (.num np))
    (hm : get data "is_active_member" = some (.binary act)) :
    validate_business_rules data = some (
      (if a < 25 ∧ 150000 < s then [BizError.youngHighSalary] else []) ++
      (if cs < 400 ∧ 200000 < b then [BizError.lowCreditHighBalance] else []) ++
      (if 4 ≤ np ∧ act = BinaryChoice.NO then [BizError.productsInactive] else [])) := by
  have h1 : rule1 data = some (decide (a < 25 ∧ 150000 < s)) := by
    unfold rule1 getNum
    rw [ha, hs]
    by_cases hlt : a < 25 <;> simp [hlt]
  have h2 : rule2 data = some (decide (cs < 400 ∧ 200000 < b)) := by
    unfold rule2 getNum
    rw [hc, hb]
    by_cases hlt : cs < 400 <;> simp [hlt]
  have h3 : rule3 data = some (decide (4 ≤ np ∧ act = BinaryChoice.NO)) := by
    unfold rule3 getNum
    rw [hn, hm]
    by_cases hle : 4 ≤ np <;> simp [hle]
  unfold validate_business_rules
  rw [h1, h2, h3]
  by_cases p1 : a < 25 ∧ 150000 < s <;>
    by_cases p2 : cs < 400 ∧ 200000 < b <;>
      by_cases p3 : 4 ≤ np ∧ act = BinaryChoice.NO <;>
        simp [p1, p2, p3]

/-- A concrete mapping for the C5 witness: age 22 with salary 200000, all
other fields unremarkable. -/
def c5data : RawData :=
  [("credit_score", .num 650), ("age", .num 22), ("tenure", .num 5),
   ("balance", .num 50000), ("num_of_products", .num 2),
   ("estimated_salary", .num 200000), ("satisfaction_score", .num 4),
   ("point_earned", .num 1000), ("has_credit_card", .binary .YES),
   ("is_active_member", .binary .YES), ("complain", .binary .NO),
   ("gender", .gender .MALE), ("country", .country .FRANCE),
   ("category", .category .SILVER)]

/-- Witness for C5: the young/high-salary rule fires alone on c5data. -/
theorem business_rules_exact_witness :
    get c5data "age" = some (.num 22) ∧
    get c5data "estimated_salary" = some (.num 200000) ∧
    validate_business_rules c5data = some [BizError.youngHighSalary] := by
  refine ⟨rfl, rfl, ?_⟩
  rw [business_rules_exact c5data 22 200000 650 50000 2 BinaryChoice.YES
        rfl rfl rfl rfl rfl rfl]
  norm_num

/-- Acceptance of one numeric field by the validator: present, a number, and
inside its declared range. -/
def numericFieldOK (data : RawData) (f : String) : Bool :=
  match get data f, lookupRange f with
  | some (.num q), some rg => decide (rg.min ≤ q ∧ q ≤ rg.max)
  | _, _ => false

/-- Acceptance of one enum field by the validator: present and a member of
its enum class. -/
def enumFieldOK (data : RawData) (fe : String × EnumClass) : Bool :=
  match get data fe.1 with
  | some v => memberOf v fe.2
  | none => false

/-- Helper: the numeric loop ends with no collected error exactly when it
started with none and every field passes. -/
theorem numLoop_empty_iff (data : RawData) :
    ∀ (fs : List String) (acc : List VError),
      ((validateNumericLoop data acc fs).1 = [] ↔
        acc = [] ∧ fs.all (numericFieldOK data) = true) := by
  intro fs
  induction fs with
  | nil => intro acc; simp [validateNumericLoop]
  | cons f rest ih =>
    intro acc
    cases hg : get data f with
    | none =>
      have hok : numericFieldOK data f = false := by simp [numericFieldOK, hg]
      simp [validateNumericLoop, hg, ih, hok]
    | some v =>
      cases hr : lookupRange f with
      | none =>
        have hok : numericFieldOK data f = false := by
          cases v <;> simp [numericFieldOK, hg, hr]
        simp [validateNumericLoop, hg, validate_numeric_field, hr, ih, hok]
      | some rg =>
        cases v with
        | num q =>
          by_cases hq : rg.min ≤ q ∧ q ≤ rg.max
          · have hok : numericFieldOK data f = true := by
              simp [numericFieldOK, hg, hr, hq]
            simp [validateNumericLoop, hg, validate_numeric_field, hr, hq, ih, hok]
          · have hok : numericFieldOK data f = false := by
              simp [numericFieldOK, hg, hr, hq]
            simp [validateNumericLoop, hg, validate_numeric_field, hr, hq, ih, hok]
        | gender g =>
          have hok : numericFieldOK data f = false := by simp [numericFieldOK, hg, hr]
          simp [validateNumericLoop, hg, validate_numeric_field, hr, hok]
        | country c1 =>
          have hok : numericFieldOK data f = false := by simp [numericFieldOK, hg, hr]
          simp [validateNumericLoop, hg, validate_numeric_field, hr, hok]
        | category k =>
          have hok : numericFieldOK data f = false := by simp [numericFieldOK, hg, hr]
          simp [validateNumericLoop, hg, validate_numeric_field, hr, hok]
        | binary b =>
          have hok : numericFieldOK data f = false := by simp [numericFieldOK, hg, hr]
          simp [validateNumericLoop, hg, validate_numeric_field, hr, hok]

/-- Helper: when the numeric loop aborts on a TypeError, some field fails. -/
theorem numLoop_abort_not_ok (data : RawData) :
    ∀ (fs : List String) (acc : List VError),
      (validateNumericLoop data acc fs).2 = true →
      fs.all (numericFieldOK data) = false := by
  intro fs
  induction fs with
  | nil => intro acc h; simp [validateNumericLoop] at h
  | cons f rest ih =>
    intro acc h
    cases hg : get data f with
    | none =>
      rw [validateNumericLoop, hg] at h
      simp [ih _ h]
    | some v =>
      cases hr : lookupRange f with
      | none =>
        rw [validateNumericLoop, hg] at h
        simp only [validate_numeric_field, hr] at h
        simp [ih _ h]
      | some rg =>
        cases v with
        | num q =>
          rw [validateNumericLoop, hg] at h
          simp only [validate_numeric_field, hr] at h
          by_cases hq : rg.min ≤ q ∧ q ≤ rg.max
          · rw [if_pos hq] at h
            simp [ih _ h]
          · rw [if_neg hq] at h
            simp [ih _ h]
        | gender g =>
          have hok : numericFieldOK data f = false := by simp [numericFieldOK, hg, hr]
          simp [hok]
        | country c1 =>
          have hok : numericFieldOK data f = false := by simp [numericFieldOK, hg, hr]
          simp [hok]
        | category k =>
          have hok : numericFieldOK data f = false := by simp [numericFieldOK, hg, hr]
          simp [hok]
        | binary b =>
          have hok : numericFieldOK data f = false := by simp [numericFieldOK, hg, hr]
          simp [hok]

/-- Helper: the enum loop returns no error beyond its accumulator exactly
when every enum field passes. -/
theorem enumLoop_empty_iff (data : RawData) :
    ∀ (fes : List (String × EnumClass)) (acc : List VError),
      (validateEnumLoop data acc fes = [] ↔
        acc = [] ∧ fes.all (enumFieldOK data) = true) := by
  intro fes
  induction fes with
  | nil => intro acc; simp [validateEnumLoop]
  | cons fe rest ih =>
    intro acc
    cases hg : get data fe.1 with
    | none =>
      have hok : enumFieldOK data fe = false := by simp [enumFieldOK, hg]
      simp [validateEnumLoop, hg, ih, hok]
    | some v =>
      by_cases hv : memberOf v fe.2 = true
      · have hok : enumFieldOK data fe = true := by simp [enumFieldOK, hg, hv]
        simp [validateEnumLoop, hg, validate_enum_field, hv, ih, hok]
      · have hok : enumFieldOK data fe = false := by
          simp [enumFieldOK, hg]
          exact Bool.not_eq_true _ ▸ hv
        simp [validateEnumLoop, hg, validate_enum_field, hv, ih, hok]

/-- C7: validate_customer_data is a total function on arbitrary attribute
mappings (raised TypeErrors are absorbed by the outer handler into the
collected errors), and it returns the empty list exactly when all 8 numeric
fields are present as in-range numbers and all 6 categorical and binary
fields are present as members of their enumerations. -/
theorem validate_customer_data_empty_iff (data : RawData) :
    validate_customer_data data = [] ↔
      (numericFields.all (numericFieldOK data) = true ∧
       enumFields.all (enumFieldOK data) = true) := by
  unfold validate_customer_data
  cases hab : (validateNumericLoop data [] numericFields).2 with
  | false =>
    simp only [hab, Bool.false_eq_true, if_false]
    rw [enumLoop_empty_iff data enumFields]
    rw [numLoop_empty_iff data numericFields []]
    simp
  | true =>
    simp only [hab, if_true]
    have hno := numLoop_abort_not_ok data numericFields [] hab
    constructor
    · intro h
      have := ((numLoop_empty_iff data numericFields []).mp h).2
      rw [hno] at this
      exact absurd this (by simp)
    · rintro ⟨hnum, _⟩
      rw [hnum] at hno
      exact absurd hno (by simp)

/-- The error half of a row outcome. -/
def errPart : Except BatchError BatchResultRow → Option BatchError
  | .error e => some e
  | .ok _ => none

/-- The line tag of a row outcome, when it is an error. -/
def tagOf : Except BatchError BatchResultRow → Option ℕ
  | .error e => some e.ligne
  | .ok _ => none

/-- Helper: the batch loop is exactly the per-row outcomes split into their
successful and failing halves, rows processed independently in order. -/
theorem batchLoop_spec (model : CustomerData → Except String (ℤ × ℚ))
    (rows : List RawRow) : ∀ idx,
    batchLoop model idx rows =
      ((rows.enumFrom idx).filterMap (fun p => (processRow model p.1 p.2).toOption),
       (rows.enumFrom idx).filterMap (fun p => errPart (processRow model p.1 p.2))) := by
  induction rows with
  | nil => intro idx; simp [batchLoop, List.enumFrom]
  | cons r rest ih =>
    intro idx
    cases hp : processRow model idx r with
    | ok row =>
      simp [batchLoop, List.enumFrom, hp, ih, errPart, Except.toOption]
    | error e =>
      simp [batchLoop, List.enumFrom, hp, ih, errPart, Except.toOption]

/-- Helper: every row contributes to exactly one of the two output lists. -/
theorem batchLoop_length (model : CustomerData → Except String (ℤ × ℚ))
    (rows : List RawRow) : ∀ idx,
    (batchLoop model idx rows).1.length + (batchLoop model idx rows).2.length
      = rows.length := by
  induction rows with
  | nil => intro idx; simp [batchLoop]
  | cons r rest ih =>
    intro idx
    cases hp : processRow model idx r with
    | ok row =>
      have h := ih (idx + 1)
      simp [batchLoop, hp]
      omega
    | error e =>
      have h := ih (idx + 1)
      simp [batchLoop, hp]
      omega

/-- Helper: a failing row at 0-based index i is tagged with line i + 1. -/
theorem processRow_tag (model : CustomerData → Except String (ℤ × ℚ))
    (i : ℕ) (r : RawRow) :
    tagOf (processRow model i r) = none ∨
    tagOf (processRow model i r) = some (i + 1) := by
  unfold processRow
  cases hc : row_to_customer_data r with
  | error e => right; simp [tagOf, BatchError.ligne]
  | ok c =>
    cases hv : validate_customer_data (CustomerData.toRawData c) with
    | nil =>
      cases hp : predictCustomer model c with
      | error e => right; simp [tagOf, BatchError.ligne, hv, hp]
      | ok res => left; simp [tagOf, hv, hp]
    | cons e es => right; simp [tagOf, BatchError.ligne, hv]

/-- C6: the batch runner processes rows independently: the result list is the
successful rows in order, the error list holds exactly one error per failed
row tagged with its 1-based index, the two counts sum to the batch size, and
the displayed aggregates report processed and errored counts with the churn
rate computed over processed rows only and left uncomputed when none
succeeded. -/
theorem batch_isolation_and_counters (model : CustomerData → Except String (ℤ × ℚ))
    (rows : List RawRow) :
    (process_batch_predictions model rows).1 =
        rows.enum.filterMap (fun p => (processRow model p.1 p.2).toOption) ∧
    (process_batch_predictions model rows).2 =
        rows.enum.filterMap (fun p => errPart (processRow model p.1 p.2)) ∧
    (process_batch_predictions model rows).1.length +
        (process_batch_predictions model rows).2.length = rows.length ∧
    (∀ i r, tagOf (processRow model i r) = none ∨
        tagOf (processRow model i r) = some (i + 1)) ∧
    display_batch_results (process_batch_predictions model rows).1
        (process_batch_predictions model rows).2 =
      { total_processed := (process_batch_predictions model rows).1.length
      , total_errors := (process_batch_predictions model rows).2.length
      , churn_predictions := ((process_batch_predictions model rows).1.filter
          (fun x => x.prediction_churn == 1)).length
      , churn_rate :=
          if 0 < (process_batch_predictions model rows).1.length
          then some ((((process_batch_predictions model rows).1.filter
              (fun x => x.prediction_churn == 1)).length : ℚ) /
              ((process_batch_predictions model rows).1.length : ℚ) * 100)
          else none } := by
  refine ⟨?_, ?_, ?_, ?_, ?_⟩
  · show (batchLoop model 0 rows).1 = _
    rw [batchLoop_spec model rows 0]
    rfl
  · show (batchLoop model 0 rows).2 = _
    rw [batchLoop_spec model rows 0]
    rfl
  · exact batchLoop_length model rows 0
  · exact fun i r => processRow_tag model i r
  · rfl

/-- Helper: the feature-completeness check in predict never fires because the
encoded dict carries exactly the model features, so the classifier outcome is
passed through with the derived risk tier. -/
theorem predictCustomer_ok (model : CustomerData → Except String (ℤ × ℚ))
    (c : CustomerData) (pp : ℤ × ℚ) (h : model c = .ok pp) :
    predictCustomer model c = .ok ⟨pp.1, pp.2, getRiskLevel pp.2⟩ := by
  have hkeys : MODEL_FEATURES.filter (fun f => !(MODEL_FEATURES.contains f)) = [] := by
    rfl
  unfold predictCustomer
  simp only [to_dict_keys, hkeys, ne_eq, not_true_eq_false, if_false, h]

/-- The concrete batch row of the C8 counterexample: every field is inside
its declared range, but age 22 with salary 200000 violates the young salary
business rule. -/
def c8row : RawRow :=
  { credit_score := .num 650, age := .num 22, tenure := .num 5
  , balance := .num 50000, num_of_products := .num 2
  , estimated_salary := .num 200000, satisfaction_score := .num 4
  , point_earned := .num 1000, has_credit_card := "Oui"
  , is_active_member := "Oui", complain := "Non", gender := "Homme"
  , country := "France", category := "SILVER" }

/-- The customer record c8row converts to. -/
def c8customer : CustomerData :=
  { credit_score := 650, age := 22, tenure := 5, balance := 50000
  , num_of_products := 2, estimated_salary := 200000, satisfaction_score := 4
  , point_earned := 1000, has_credit_card := .YES, is_active_member := .YES
  , complain := .NO, gender := .MALE, country := .FRANCE, category := .SILVER }

/-- A concrete classifier stub for the batch counterexample. -/
def constModel : CustomerData → Except String (ℤ × ℚ) := fun _ => .ok (1, 4/5)

/-- Counterexample to C8: c8row violates the young/high-salary business rule,
yet the batch runner records no error for it and predicts it, because the
batch path never calls validate_business_rules. -/
theorem batch_business_rule_not_enforced :
    row_to_customer_data c8row = .ok c8customer ∧
    validate_business_rules (CustomerData.toRawData c8customer) =
      some [BizError.youngHighSalary] ∧
    (process_batch_predictions constModel [c8row]).2 = [] ∧
    ((process_batch_predictions constModel [c8row]).1.map (fun x => x.ligne)) = [1] := by
  refine ⟨rfl, rfl, rfl, rfl⟩

/-- C8 amended: the batch runner validates a converted row only through
validate_customer_data; whenever that returns no error and the classifier
answers, the row is predicted, even when validate_business_rules reports an
inconsistency on the very same record. -/
theorem batch_predicts_despite_business_rules
    (model : CustomerData → Except String (ℤ × ℚ)) (i : ℕ) (r : RawRow)
    (c : CustomerData) (pp : ℤ × ℚ)
    (hconv : row_to_customer_data r = .ok c)
    (hval : validate_customer_data (CustomerData.toRawData c) = [])
    (hbiz : validate_business_rules (CustomerData.toRawData c) ≠ some [])
    (hmodel : model c = .ok pp) :
    processRow model i r =
      .ok (mkResultRow (i + 1) c ⟨pp.1, pp.2, getRiskLevel pp.2⟩) := by
  unfold processRow
  simp only [hconv, hval, predictCustomer_ok model c pp hmodel]

/-- Witness for the amended C8 on the concrete counterexample row. -/
theorem batch_predicts_despite_business_rules_witness :
    row_to_customer_data c8row = .ok c8customer ∧
    validate_customer_data (CustomerData.toRawData c8customer) = [] ∧
    validate_business_rules (CustomerData.toRawData c8customer) ≠ some [] ∧
    processRow constModel 0 c8row =
      .ok (mkResultRow 1 c8customer ⟨1, 4/5, getRiskLevel (4/5)⟩) :=
  ⟨rfl, rfl, by decide,
   batch_predicts_despite_business_rules constModel 0 c8row c8customer (1, 4/5)
     rfl rfl (by decide) rfl⟩

/-- C9: when the eight numeric cells of a raw row parse, conversion never
fails on a label string: a gender other than Homme becomes FEMALE, a country
other than France or Allemagne becomes SPAIN, a category other than RUBIS,
SILVER or GOLD becomes PLATINUM, a yes/no value other than Oui becomes NO,
and all six resulting enum members pass the enum membership validation. -/
theorem row_conversion_total_on_labels (r : RawRow)
    (q1 q2 q3 q4 q5 q6 q7 q8 : ℚ)
    (h1 : r.credit_score = .num q1) (h2 : r.age = .num q2)
    (h3 : r.tenure = .num q3) (h4 : r.balance = .num q4)
    (h5 : r.num_of_products = .num q5) (h6 : r.estimated_salary = .num q6)
    (h7 : r.satisfaction_score = .num q7) (h8 : r.point_earned = .num q8) :
    ∃ c, row_to_customer_data r = .ok c ∧
      (r.gender = "Homme" ∨ c.gender = Gender.FEMALE) ∧
      (r.country = "France" ∨ r.country = "Allemagne" ∨ c.country = Country.SPAIN) ∧
      (r.category = "RUBIS" ∨ r.category = "SILVER" ∨ r.category = "GOLD" ∨
        c.category = Category.PLATINUM) ∧
      (r.has_credit_card = "Oui" ∨ c.has_credit_card = BinaryChoice.NO) ∧
      (r.is_active_member = "Oui" ∨ c.is_active_member = BinaryChoice.NO) ∧
      (r.complain = "Oui" ∨ c.complain = BinaryChoice.NO) ∧
      enumFields.all (enumFieldOK (CustomerData.toRawData c)) = true := by
  refine ⟨{ credit_score := pyInt q1, age := pyInt q2, tenure := pyInt q3
          , balance := q4, num_of_products := pyInt q5, estimated_salary := q6
          , satisfaction_score := pyInt q7, point_earned := pyInt q8
          , has_credit_card := parseBinary r.has_credit_card
          , is_active_member := parseBinary r.is_active_member
          , complain := parseBinary r.complain
          , gender := parseGender r.gender
          , country := parseCountry r.country
          , category := parseCategory r.category },
        ?_, ?_, ?_, ?_, ?_, ?_, ?_, ?_⟩
  · simp only [row_to_customer_data, h1, h2, h3, h4, h5, h6, h7, h8,
      cellInt, cellFloat]
    rfl
  · by_cases hg : r.gender = "Homme"
    · exact Or.inl hg
    · right; simp [parseGender, hg]
  · by_cases hf : r.country = "France"
    · exact Or.inl hf
    · by_cases ha : r.country = "Allemagne"
      · exact Or.inr (Or.inl ha)
      · right; right; simp [parseCountry, hf, ha]
  · by_cases hr1 : r.category = "RUBIS"
    · exact Or.inl hr1
    · by_cases hr2 : r.category = "SILVER"
      · exact Or.inr (Or.inl hr2)
      · by_cases hr3 : r.category = "GOLD"
        · exact Or.inr (Or.inr (Or.inl hr3))
        · right; right; right; simp [parseCategory, hr1, hr2, hr3]
  · by_cases hb : r.has_credit_card = "Oui"
    · exact Or.inl hb
    · right; simp [parseBinary, hb]
  · by_cases hb : r.is_active_member = "Oui"
    · exact Or.inl hb
    · right; simp [parseBinary, hb]
  · by_cases hb : r.complain = "Oui"
    · exact Or.inl hb
    · right; simp [parseBinary, hb]
  · rfl

/-- A raw row full of misspelled and foreign labels, with parsing numerics. -/
def c9row : RawRow :=
  { credit_score := .num 650, age := .num 35, tenure := .num 5
  , balance := .num 50000, num_of_products := .num 2
  , estimated_salary := .num 75000, satisfaction_score := .num 4
  , point_earned := .num 1000, has_credit_card := "YES"
  , is_active_member := "oui", complain := "yes", gender := "Hommme"
  , country := "Germany", category := "gold" }

/-- Witness for C9: the misspelled-label row converts without error. -/
theorem row_conversion_total_on_labels_witness :
    c9row.credit_score = RawCell.num 650 ∧
    ∃ c, row_to_customer_data c9row = .ok c ∧
      (c9row.gender = "Homme" ∨ c.gender = Gender.FEMALE) ∧
      (c9row.country = "France" ∨ c9row.country = "Allemagne" ∨
        c.country = Country.SPAIN) ∧
      (c9row.category = "RUBIS" ∨ c9row.category = "SILVER" ∨
        c9row.category = "GOLD" ∨ c.category = Category.PLATINUM) ∧
      (c9row.has_credit_card = "Oui" ∨ c.has_credit_card = BinaryChoice.NO) ∧
      (c9row.is_active_member = "Oui" ∨ c.is_active_member = BinaryChoice.NO) ∧
      (c9row.complain = "Oui" ∨ c.complain = BinaryChoice.NO) ∧
      enumFields.all (enumFieldOK (CustomerData.toRawData c)) = true :=
  ⟨rfl, row_conversion_total_on_labels c9row 650 35 5 50000 2 75000 4 1000
    rfl rfl rfl rfl rfl rfl rfl rfl⟩

end Churn
